import Mathlib

/-!
Shallow embedding of the smart-stock-viewer metrics pipeline.

The repository's two source files are the HTTP glue: ticker-string parsing,
the per-ticker batch loops of the `/api/ohlc` and `/api/metrics` endpoints,
and the JSON response shaping.  The analytics core
`compute_metrics_from_close` is imported by both files but its module is not
part of the source tree, so it is modelled here from the specification
(definitions marked `Modelled from the spec:`).  Prices and returns are
embedded as exact rationals; the square roots introduced by annualisation
live in `ℝ`.
-/

namespace StockViewer

/-- Modelled from the spec: the `periods_per_year` lookup (daily→252,
weekly→52, monthly→12); an unrecognized interval label falls back to the
daily default of 252 rather than failing. -/
def periodsPerYear (interval : String) : ℚ :=
  if interval = "d" then 252
  else if interval = "w" then 52
  else if interval = "m" then 12
  else 252

/-- Modelled from the spec: the simple return of one consecutive pair of
close prices, `c / p - 1`; null when either price of the pair is missing or
zero (propagated, no exception). -/
def pairReturn (prev cur : Option ℚ) : Option ℚ :=
  match prev, cur with
  | some p, some c => if p = 0 ∨ c = 0 then none else some (c / p - 1)
  | _, _ => none

/-- Modelled from the spec: the simple-return series of a close-price
series, one entry per consecutive pair of observations. -/
def simpleReturns : List (Option ℚ) → List (Option ℚ)
  | a :: b :: rest => pairReturn a b :: simpleReturns (b :: rest)
  | _ => []

/-- Modelled from the spec: arithmetic mean of a list of returns. -/
def mean (l : List ℚ) : ℚ := l.sum / l.length

/-- Modelled from the spec: sample variance with the n−1 denominator. -/
def sampleVar (l : List ℚ) : ℚ :=
  (l.map (fun x => (x - mean l) ^ 2)).sum / ((l.length : ℚ) - 1)

/-- Modelled from the spec: the trailing window of min(30, i+1) return
entries ending at index `i` of the return series. -/
def trailingWindow (r : List (Option ℚ)) (i : ℕ) : List (Option ℚ) :=
  (r.take (i + 1)).drop (i + 1 - 30)

/-- Modelled from the spec: the rolling 30-period annualised volatility
series, aligned to the return series; null where fewer than 2 returns are
available in the trailing window. -/
noncomputable def rollingVol (ppy : ℚ) (r : List (Option ℚ)) : List (Option ℝ) :=
  (List.range r.length).map fun i =>
    let w := (trailingWindow r i).reduceOption
    if w.length < 2 then none
    else some (Real.sqrt (sampleVar w) * Real.sqrt ppy)

structure SeriesBlock where
  dates : List String
  returns : List (Option ℚ)
  rolling_vol_30 : List (Option ℝ)

structure SummaryBlock where
  annualised_return : Option ℚ
  annualised_volatility : Option ℝ
  var_95_1d : Option ℝ
  var_99_1d : Option ℝ

structure MetricsResult where
  series : SeriesBlock
  summary : SummaryBlock

/-- Modelled from the spec: the left-tail standard-normal quantile at 95%
confidence, −1.645. -/
noncomputable def z95 : ℝ := -(1645 / 1000)

/-- Modelled from the spec: the left-tail standard-normal quantile at 99%
confidence, −2.326. -/
noncomputable def z99 : ℝ := -(2326 / 1000)

/-- Modelled from the spec: the body of the metrics engine, parameterised by
the annualisation factor already looked up from the interval label. -/
noncomputable def computeFromPpy
    (ppy : ℚ) (close : List (String × Option ℚ)) : MetricsResult :=
  let r := simpleReturns (close.map Prod.snd)
  let v := r.reduceOption
  { series :=
      { dates := (close.map Prod.fst).drop 1
        returns := r
        rolling_vol_30 := rollingVol ppy r }
    summary :=
      { annualised_return := if v.length = 0 then none else some (mean v * ppy)
        annualised_volatility :=
          if v.length < 2 then none
          else some (Real.sqrt (sampleVar v) * Real.sqrt ppy)
        var_95_1d :=
          if v.length < 2 then none
          else some (-((mean v : ℝ) + z95 * Real.sqrt (sampleVar v)))
        var_99_1d :=
          if v.length < 2 then none
          else some (-((mean v : ℝ) + z99 * Real.sqrt (sampleVar v))) } }

/-- Modelled from the spec: the metrics engine `compute_metrics_from_close`
(its module is imported by both source files but absent from the source
tree).  From a dated close-price series and an interval label it derives the
return series, the date-aligned rolling volatility series, and the summary
block (annualised return, annualised volatility, 1-period parametric VaR at
95% and 99%). -/
noncomputable def compute_metrics_from_close
    (close : List (String × Option ℚ)) (interval : String) : MetricsResult :=
  computeFromPpy (periodsPerYear interval) close

/-- Python whitespace for `str.strip` (space, tab, LF, CR, VT, FF). -/
def pyIsSpace (c : Char) : Bool :=
  c = ' ' || c = '\t' || c = '\n' || c = '\r' || c = '\x0b' || c = '\x0c'

/-- Python `x.strip()`: drop leading and trailing whitespace. -/
def pyStrip (s : String) : String :=
  String.mk (((s.data.dropWhile pyIsSpace).reverse.dropWhile pyIsSpace).reverse)

/-- Python `t.upper()` on the ASCII range. -/
def pyUpper (s : String) : String :=
  String.mk (s.data.map Char.toUpper)

/-- Worker for Python `tickers.split(",")`, over the character list. -/
def splitCommaAux (acc : List Char) : List Char → List String
  | [] => [String.mk acc.reverse]
  | c :: rest =>
      if c = ',' then String.mk acc.reverse :: splitCommaAux [] rest
      else splitCommaAux (c :: acc) rest

/-- Python `tickers.split(",")`. -/
def splitComma (s : String) : List String := splitCommaAux [] s.data

/-- The token list of `main.py` lines 58/81:
`[x.strip() for x in tickers.split(",") if x.strip()]`. -/
def parseTickers (s : String) : List String :=
  ((splitComma s).map pyStrip).filter (fun t => t ≠ "")

/-- Python dict assignment `m[k] = v` on an association-list model of a
`dict`: update in place when the key exists (keeping its original
position), otherwise append at the end. -/
def dictInsert {ε : Type} (m : List (String × ε)) (k : String) (v : ε) :
    List (String × ε) :=
  if k ∈ m.map Prod.fst then
    m.map (fun p => if p.1 = k then (k, v) else p)
  else m ++ [(k, v)]

/-- Key lookup in the association-list model of a Python dict. -/
def findVal {ε : Type} (m : List (String × ε)) (k : String) : Option ε :=
  match m with
  | [] => none
  | p :: rest => if p.1 = k then some p.2 else findVal rest k

/-- The `for t in tokens: out[t.upper()] = val(t)` loop shape shared by both
endpoints of `main.py`. -/
def pyDictLoop {ε : Type} (val : String → ε) (toks : List String) :
    List (String × ε) :=
  toks.foldl (fun m t => dictInsert m (pyUpper t) (val t)) []

/-- The `/api/ohlc` per-ticker loop (`main.py` lines 57–62): each download
is wrapped in try/except, so a ticker whose fetch raises degrades to an
empty row list. -/
def ohlcLoop {ρ : Type} (fetch : String → Except Unit (List ρ))
    (toks : List String) : List (String × List ρ) :=
  pyDictLoop
    (fun t => match fetch t with
      | Except.ok rows => rows
      | Except.error _ => []) toks

structure ApiResponse (ε : Type) where
  tickers : List String
  interval : String
  range : String
  data : List (String × ε)

/-- The `/api/ohlc` endpoint (`main.py` lines 48–69): parse the ticker
parameter, run the per-ticker loop, and shape the payload with
`tickers = list(results.keys())`. -/
def ohlcEndpoint {ρ : Type} (fetch : String → Except Unit (List ρ))
    (tks iv rng : String) : ApiResponse (List ρ) :=
  let results := ohlcLoop fetch (parseTickers tks)
  { tickers := results.map Prod.fst, interval := iv, range := rng,
    data := results }

/-- The `/api/metrics` per-ticker loop (`main.py` lines 80–94): the download
is not wrapped in try/except, so an exception aborts the whole loop; an
empty download degrades to the all-null entry; `proc` abstracts the
sort-and-compute step applied to a non-empty download. -/
def metricsLoop {ρ ε : Type} (fetch : String → Except Unit (List ρ))
    (proc : List ρ → ε) (nullEntry : ε) :
    List String → List (String × ε) → Except Unit (List (String × ε))
  | [], m => Except.ok m
  | t :: rest, m =>
      match fetch t with
      | Except.error u => Except.error u
      | Except.ok rows =>
          metricsLoop fetch proc nullEntry rest
            (dictInsert m (pyUpper t) (if rows.isEmpty then nullEntry else proc rows))

/-- The `/api/metrics` endpoint loop run on the parsed ticker parameter. -/
def metricsEndpointLoop {ρ ε : Type} (fetch : String → Except Unit (List ρ))
    (proc : List ρ → ε) (nullEntry : ε) (tks : String) :
    Except Unit (List (String × ε)) :=
  metricsLoop fetch proc nullEntry (parseTickers tks) []

/-- Worker for first-occurrence deduplication, carrying the keys already
seen. -/
def firstDedupAux (seen : List String) : List String → List String
  | [] => []
  | a :: l =>
      if a ∈ seen then firstDedupAux seen l
      else a :: firstDedupAux (a :: seen) l

/-- First-occurrence deduplication: the key order of a Python dict built by
repeated assignment. -/
def firstDedup (l : List String) : List String := firstDedupAux [] l

/-- The round-trip example of the spec: prices 100, 110, 121 (10% growth in
each period). -/
def pricesABC : List (String × Option ℚ) :=
  [("2024-01-01", some 100), ("2024-01-02", some 110), ("2024-01-03", some 121)]

/-- A price series whose two returns differ, so its rolling volatility is
non-zero at index 1. -/
def pricesVol : List (String × Option ℚ) :=
  [("2024-01-01", some 1), ("2024-01-02", some 2), ("2024-01-03", some 1)]

/-- A fetcher that raises (models a yfinance download throwing) on the
ticker `BAD` and succeeds with one row on every other ticker. -/
def fetchBad : String → Except Unit (List ℕ) :=
  fun t => if t = "BAD" then Except.error () else Except.ok [1]

/-- A fetcher that succeeds with one row on every ticker. -/
def fetchOk : String → Except Unit (List ℕ) :=
  fun _ => Except.ok [2]

example : parseTickers " aapl , ,MSFT" = ["aapl", "MSFT"] := by decide

example : simpleReturns [some 100, some 110, some 121] = [some (1/10), some (1/10)] := by
  norm_num [simpleReturns, pairReturn]

example : firstDedup ["A", "B", "A"] = ["A", "B"] := by decide

theorem simpleReturns_length (l : List (Option ℚ)) :
    (simpleReturns l).length = l.length - 1 := by
  induction l with
  | nil => rfl
  | cons a l ih =>
    cases l with
    | nil => rfl
    | cons b rest =>
      simp only [simpleReturns, List.length_cons] at ih ⊢
      omega

theorem simpleReturns_getElem? (l : List (Option ℚ)) (i : ℕ) :
    (simpleReturns l)[i]? =
      match l[i]?, l[i + 1]? with
      | some a, some b => some (pairReturn a b)
      | _, _ => none := by
  induction l generalizing i with
  | nil => simp [simpleReturns]
  | cons a l ih =>
    cases l with
    | nil => cases i <;> simp [simpleReturns]
    | cons b rest =>
      cases i with
      | zero => simp [simpleReturns]
      | succ j => simpa [simpleReturns] using ih j

theorem pairReturn_none_left (c : Option ℚ) : pairReturn none c = none := by
  cases c <;> rfl

theorem pairReturn_none_right (p : Option ℚ) : pairReturn p none = none := by
  cases p <;> rfl

theorem pairReturn_zero_left (c : Option ℚ) : pairReturn (some 0) c = none := by
  cases c with
  | none => rfl
  | some cc => simp [pairReturn]

theorem pairReturn_zero_right (p : Option ℚ) : pairReturn p (some 0) = none := by
  cases p with
  | none => rfl
  | some pp => simp [pairReturn]

theorem rollingVol_length (ppy : ℚ) (r : List (Option ℚ)) :
    (rollingVol ppy r).length = r.length := by
  simp [rollingVol]

/-- C5: for every price series of length n, the dates, returns and
rolling_vol_30 series of the result each have length n − 1 (natural-number
subtraction, i.e. max(0, n−1)); in particular the three series always have
equal lengths and are exactly one shorter than the price series. -/
theorem C5_series_lengths (close : List (String × Option ℚ)) (interval : String) :
    (compute_metrics_from_close close interval).series.dates.length = close.length - 1 ∧
    (compute_metrics_from_close close interval).series.returns.length = close.length - 1 ∧
    (compute_metrics_from_close close interval).series.rolling_vol_30.length =
      close.length - 1 := by
  refine ⟨?_, ?_, ?_⟩ <;>
    simp [compute_metrics_from_close, computeFromPpy, rollingVol_length,
      simpleReturns_length]

/-- C6: for every price series of length 0 or 1 the metrics computation is
total (never raises) and returns empty dates/returns/rolling series and
all-null summary fields. -/
theorem C6_short_input (close : List (String × Option ℚ)) (interval : String)
    (h : close.length ≤ 1) :
    (compute_metrics_from_close close interval).series.dates = [] ∧
    (compute_metrics_from_close close interval).series.returns = [] ∧
    (compute_metrics_from_close close interval).series.rolling_vol_30 = [] ∧
    (compute_metrics_from_close close interval).summary.annualised_return = none ∧
    (compute_metrics_from_close close interval).summary.annualised_volatility = none ∧
    (compute_metrics_from_close close interval).summary.var_95_1d = none ∧
    (compute_metrics_from_close close interval).summary.var_99_1d = none := by
  match close, h with
  | [], _ =>
    refine ⟨?_, ?_, ?_, ?_, ?_, ?_, ?_⟩ <;>
      simp [compute_metrics_from_close, computeFromPpy, simpleReturns, rollingVol]
  | [p], _ =>
    refine ⟨?_, ?_, ?_, ?_, ?_, ?_, ?_⟩ <;>
      simp [compute_metrics_from_close, computeFromPpy, simpleReturns, rollingVol]

/-- C6 witness: the theorem applied to the one-point price series. -/
theorem C6_short_input_witness :
    ([("2024-01-02", some (100 : ℚ))] : List (String × Option ℚ)).length ≤ 1 ∧
    (compute_metrics_from_close [("2024-01-02", some 100)] "d").series.dates = [] ∧
    (compute_metrics_from_close [("2024-01-02", some 100)] "d").series.returns = [] ∧
    (compute_metrics_from_close [("2024-01-02", some 100)] "d").series.rolling_vol_30 = [] ∧
    (compute_metrics_from_close [("2024-01-02", some 100)] "d").summary.annualised_return
      = none ∧
    (compute_metrics_from_close [("2024-01-02", some 100)] "d").summary.annualised_volatility
      = none ∧
    (compute_metrics_from_close [("2024-01-02", some 100)] "d").summary.var_95_1d = none ∧
    (compute_metrics_from_close [("2024-01-02", some 100)] "d").summary.var_99_1d = none :=
  ⟨by decide, C6_short_input [("2024-01-02", some 100)] "d" (by decide)⟩

/-- C7: an interval label outside d/w/m silently falls back to the daily
annualisation factor 252 and the computation yields exactly the daily
result; nothing fails. -/
theorem C7_unknown_interval (close : List (String × Option ℚ)) (interval : String)
    (h1 : interval ≠ "d") (h2 : interval ≠ "w") (h3 : interval ≠ "m") :
    periodsPerYear interval = 252 ∧
    compute_metrics_from_close close interval = compute_metrics_from_close close "d" := by
  have hp : periodsPerYear interval = 252 := by
    simp [periodsPerYear, h1, h2, h3]
  refine ⟨hp, ?_⟩
  have hpd : periodsPerYear interval = periodsPerYear "d" := by rw [hp]; rfl
  simp only [compute_metrics_from_close, hpd]

/-- C7 witness: the theorem applied to the unrecognized label `x`. -/
theorem C7_unknown_interval_witness :
    ("x" ≠ "d" ∧ "x" ≠ "w" ∧ "x" ≠ "m") ∧
    periodsPerYear "x" = 252 ∧
    compute_metrics_from_close pricesABC "x" = compute_metrics_from_close pricesABC "d" :=
  ⟨⟨by decide, by decide, by decide⟩,
    C7_unknown_interval pricesABC "x" (by decide) (by decide) (by decide)⟩

/-- C1 (amended): the return series always has one entry per consecutive
pair of prices (length n − 1, so it is empty when the price series has
fewer than 2 points); the entry for a pair of present non-zero prices p, c
is the simple return c/p − 1; the entry is null when either price of the
pair is missing or zero. -/
theorem C1_returns (close : List (String × Option ℚ)) (interval : String) :
    (compute_metrics_from_close close interval).series.returns.length = close.length - 1 ∧
    (close.length < 2 → (compute_metrics_from_close close interval).series.returns = []) ∧
    (∀ i d1 d2 p c, close[i]? = some (d1, some p) → close[i + 1]? = some (d2, some c) →
      p ≠ 0 → c ≠ 0 →
      (compute_metrics_from_close close interval).series.returns[i]? =
        some (some (c / p - 1))) ∧
    (∀ i d1 d2 p c, close[i]? = some (d1, p) → close[i + 1]? = some (d2, c) →
      (p = none ∨ c = none ∨ p = some 0 ∨ c = some 0) →
      (compute_metrics_from_close close interval).series.returns[i]? = some none) := by
  have hre : (compute_metrics_from_close close interval).series.returns =
      simpleReturns (close.map Prod.snd) := rfl
  refine ⟨?_, ?_, ?_, ?_⟩
  · rw [hre, simpleReturns_length, List.length_map]
  · intro hlen
    rw [hre]
    have := simpleReturns_length (close.map Prod.snd)
    rw [List.length_map] at this
    exact List.eq_nil_of_length_eq_zero (by omega)
  · intro i d1 d2 p c hp hc hp0 hc0
    rw [hre, simpleReturns_getElem?]
    rw [List.getElem?_map, List.getElem?_map, hp, hc]
    simp [pairReturn, hp0, hc0]
  · intro i d1 d2 p c hp hc hcase
    rw [hre, simpleReturns_getElem?]
    rw [List.getElem?_map, List.getElem?_map, hp, hc]
    rcases hcase with h | h | h | h <;> subst h
    · simp [pairReturn_none_left]
    · simp [pairReturn_none_right]
    · simp [pairReturn_zero_left]
    · simp [pairReturn_zero_right]

/-- C1 witness: the theorem applied to two present non-zero prices 100 and
110, whose return entry is 110/100 − 1 = 1/10. -/
theorem C1_returns_witness :
    (([("a", some 100), ("b", some 110)] : List (String × Option ℚ))[0]? =
      some ("a", some (100 : ℚ))) ∧
    (([("a", some 100), ("b", some 110)] : List (String × Option ℚ))[1]? =
      some ("b", some (110 : ℚ))) ∧
    (100 : ℚ) ≠ 0 ∧ (110 : ℚ) ≠ 0 ∧
    (compute_metrics_from_close [("a", some 100), ("b", some 110)] "d").series.returns[0]? =
      some (some ((110 : ℚ) / 100 - 1)) :=
  ⟨by decide, by decide, by norm_num, by norm_num,
    (C1_returns [("a", some 100), ("b", some 110)] "d").2.2.1 0 "a" "b" 100 110
      (by decide) (by decide) (by norm_num) (by norm_num)⟩

/-- C1 counterexample: a price series with two points but zero valid
(non-missing) prices has fewer than 2 valid points, yet its return series
is not empty — it is the one-element series holding a null. -/
theorem C1_counterexample :
    ((([("2024-01-01", none), ("2024-01-02", none)] :
        List (String × Option ℚ)).map Prod.snd).reduceOption.length < 2) ∧
    (compute_metrics_from_close
        [("2024-01-01", none), ("2024-01-02", none)] "d").series.returns ≠ [] := by
  constructor
  · decide
  · have : (compute_metrics_from_close
        [("2024-01-01", none), ("2024-01-02", none)] "d").series.returns =
        [none] := by
      simp [compute_metrics_from_close, computeFromPpy, simpleReturns, pairReturn]
    rw [this]
    simp

/-- C2: at every index i of the return series, the rolling_vol_30 value is
the annualised sample standard deviation of the trailing window of
min(30, i+1) return entries ending at i — the window is exactly the slice
of the return series starting at index i+1−min(30, i+1), so it never
exceeds 30 entries and never reaches before the series start — and is null
whenever the window holds fewer than 2 (non-null) returns. -/
theorem C2_rolling_vol (close : List (String × Option ℚ)) (interval : String) (i : ℕ)
    (h : i < (compute_metrics_from_close close interval).series.rolling_vol_30.length) :
    (trailingWindow (simpleReturns (close.map Prod.snd)) i).length = min 30 (i + 1) ∧
    (∀ j, j < min 30 (i + 1) →
      (trailingWindow (simpleReturns (close.map Prod.snd)) i)[j]? =
        (simpleReturns (close.map Prod.snd))[i + 1 - min 30 (i + 1) + j]?) ∧
    (compute_metrics_from_close close interval).series.rolling_vol_30[i]? =
      some (if ((trailingWindow (simpleReturns (close.map Prod.snd)) i).reduceOption).length < 2
        then none
        else some (Real.sqrt
            (sampleVar ((trailingWindow (simpleReturns (close.map Prod.snd)) i).reduceOption)) *
          Real.sqrt (periodsPerYear interval))) := by
  have hlen : i < (simpleReturns (close.map Prod.snd)).length := by
    simpa [compute_metrics_from_close, computeFromPpy, rollingVol_length] using h
  have hwl : (trailingWindow (simpleReturns (close.map Prod.snd)) i).length =
      min 30 (i + 1) := by
    simp only [trailingWindow, List.length_drop, List.length_take]
    omega
  refine ⟨hwl, ?_, ?_⟩
  · intro j hj
    have h30 : i + 1 - min 30 (i + 1) + j = i + 1 - 30 + j := by omega
    rw [h30, trailingWindow, List.getElem?_drop]
    exact List.getElem?_take_of_lt (by omega)
  · have hproj : (compute_metrics_from_close close interval).series.rolling_vol_30 =
        rollingVol (periodsPerYear interval) (simpleReturns (close.map Prod.snd)) := rfl
    rw [hproj, rollingVol, List.getElem?_map]
    simp [List.getElem?_range, hlen]

/-- C2 witness: the theorem applied to the three-point price series at
index 1 of its return series. -/
theorem C2_rolling_vol_witness :
    1 < (compute_metrics_from_close pricesABC "d").series.rolling_vol_30.length ∧
    ((trailingWindow (simpleReturns (pricesABC.map Prod.snd)) 1).length = min 30 (1 + 1) ∧
     (∀ j, j < min 30 (1 + 1) →
       (trailingWindow (simpleReturns (pricesABC.map Prod.snd)) 1)[j]? =
         (simpleReturns (pricesABC.map Prod.snd))[1 + 1 - min 30 (1 + 1) + j]?) ∧
     (compute_metrics_from_close pricesABC "d").series.rolling_vol_30[1]? =
       some (if ((trailingWindow (simpleReturns (pricesABC.map Prod.snd)) 1).reduceOption).length < 2
         then none
         else some (Real.sqrt
             (sampleVar ((trailingWindow (simpleReturns (pricesABC.map Prod.snd)) 1).reduceOption)) *
           Real.sqrt (periodsPerYear "d")))) := by
  have h1 : 1 < (compute_metrics_from_close pricesABC "d").series.rolling_vol_30.length := by
    norm_num [compute_metrics_from_close, computeFromPpy, rollingVol_length,
      simpleReturns_length, pricesABC]
  exact ⟨h1, C2_rolling_vol pricesABC "d" 1 h1⟩

/-- C3: annualised_return is the arithmetic mean of the (non-null) returns
of the full return series times periods_per_year, and is null when the
return series is empty; annualised_volatility is the sample standard
deviation (n−1 denominator) of the returns times sqrt(periods_per_year),
and is null when fewer than 2 returns exist. -/
theorem C3_summary (close : List (String × Option ℚ)) (interval : String) :
    ((compute_metrics_from_close close interval).series.returns = [] →
      (compute_metrics_from_close close interval).summary.annualised_return = none) ∧
    ((simpleReturns (close.map Prod.snd)).reduceOption ≠ [] →
      (compute_metrics_from_close close interval).summary.annualised_return =
        some (mean ((simpleReturns (close.map Prod.snd)).reduceOption) *
          periodsPerYear interval)) ∧
    (((simpleReturns (close.map Prod.snd)).reduceOption).length < 2 →
      (compute_metrics_from_close close interval).summary.annualised_volatility = none) ∧
    (2 ≤ ((simpleReturns (close.map Prod.snd)).reduceOption).length →
      (compute_metrics_from_close close interval).summary.annualised_volatility =
        some (Real.sqrt (sampleVar ((simpleReturns (close.map Prod.snd)).reduceOption)) *
          Real.sqrt (periodsPerYear interval))) := by
  have har : (compute_metrics_from_close close interval).summary.annualised_return =
      if ((simpleReturns (close.map Prod.snd)).reduceOption).length = 0 then none
      else some (mean ((simpleReturns (close.map Prod.snd)).reduceOption) *
        periodsPerYear interval) := rfl
  have hav : (compute_metrics_from_close close interval).summary.annualised_volatility =
      if ((simpleReturns (close.map Prod.snd)).reduceOption).length < 2 then none
      else some (Real.sqrt (sampleVar ((simpleReturns (close.map Prod.snd)).reduceOption)) *
        Real.sqrt (periodsPerYear interval)) := rfl
  refine ⟨?_, ?_, ?_, ?_⟩
  · intro hre
    have hv : (simpleReturns (close.map Prod.snd)).reduceOption = [] := by
      have : (compute_metrics_from_close close interval).series.returns =
          simpleReturns (close.map Prod.snd) := rfl
      rw [this] at hre
      rw [hre]
      rfl
    rw [har, hv]
    rfl
  · intro hne
    rw [har, if_neg (fun h0 => hne (List.length_eq_zero.mp h0))]
  · intro hlt
    rw [hav, if_pos hlt]
  · intro hge
    rw [hav, if_neg (by omega)]

/-- C3 witness: the spec round-trip — prices 100, 110, 121 at daily
interval give annualised_return 0.1·252 = 126/5 = 25.2 and
annualised_volatility 0. -/
theorem C3_summary_witness :
    (simpleReturns (pricesABC.map Prod.snd)).reduceOption ≠ [] ∧
    2 ≤ ((simpleReturns (pricesABC.map Prod.snd)).reduceOption).length ∧
    (compute_metrics_from_close pricesABC "d").summary.annualised_return =
      some (126 / 5) ∧
    (compute_metrics_from_close pricesABC "d").summary.annualised_volatility = some 0 := by
  have hval : (simpleReturns (pricesABC.map Prod.snd)).reduceOption = [1 / 10, 1 / 10] := by
    norm_num [pricesABC, simpleReturns, pairReturn, List.reduceOption, List.filterMap_cons]
  have h1 : (simpleReturns (pricesABC.map Prod.snd)).reduceOption ≠ [] := by
    rw [hval]
    simp
  have h2 : 2 ≤ ((simpleReturns (pricesABC.map Prod.snd)).reduceOption).length := by
    rw [hval]
    simp
  have hret := (C3_summary pricesABC "d").2.1 h1
  have hvol := (C3_summary pricesABC "d").2.2.2 h2
  rw [hval] at hret hvol
  refine ⟨h1, h2, ?_, ?_⟩
  · rw [hret]
    norm_num [mean, periodsPerYear]
  · rw [hvol]
    have h0 : sampleVar [(1 : ℚ) / 10, 1 / 10] = 0 := by
      norm_num [sampleVar, mean]
    rw [h0]
    norm_num

/-- C4: with at least 2 returns, var_95_1d = −(μ + z95·σ) and
var_99_1d = −(μ + z99·σ) for the unannualised per-period mean μ and
standard deviation σ of the return series; both are null with fewer than 2
returns; and when σ = 0 both equal −μ. -/
theorem C4_var (close : List (String × Option ℚ)) (interval : String) :
    (((simpleReturns (close.map Prod.snd)).reduceOption).length < 2 →
      (compute_metrics_from_close close interval).summary.var_95_1d = none ∧
      (compute_metrics_from_close close interval).summary.var_99_1d = none) ∧
    (2 ≤ ((simpleReturns (close.map Prod.snd)).reduceOption).length →
      (compute_metrics_from_close close interval).summary.var_95_1d =
        some (-((mean ((simpleReturns (close.map Prod.snd)).reduceOption) : ℝ) +
          z95 * Real.sqrt (sampleVar ((simpleReturns (close.map Prod.snd)).reduceOption)))) ∧
      (compute_metrics_from_close close interval).summary.var_99_1d =
        some (-((mean ((simpleReturns (close.map Prod.snd)).reduceOption) : ℝ) +
          z99 * Real.sqrt (sampleVar ((simpleReturns (close.map Prod.snd)).reduceOption))))) ∧
    (2 ≤ ((simpleReturns (close.map Prod.snd)).reduceOption).length →
      Real.sqrt (sampleVar ((simpleReturns (close.map Prod.snd)).reduceOption)) = 0 →
      (compute_metrics_from_close close interval).summary.var_95_1d =
        some (-((mean ((simpleReturns (close.map Prod.snd)).reduceOption) : ℝ))) ∧
      (compute_metrics_from_close close interval).summary.var_99_1d =
        some (-((mean ((simpleReturns (close.map Prod.snd)).reduceOption) : ℝ)))) := by
  have h95 : (compute_metrics_from_close close interval).summary.var_95_1d =
      if ((simpleReturns (close.map Prod.snd)).reduceOption).length < 2 then none
      else some (-((mean ((simpleReturns (close.map Prod.snd)).reduceOption) : ℝ) +
        z95 * Real.sqrt (sampleVar ((simpleReturns (close.map Prod.snd)).reduceOption)))) := rfl
  have h99 : (compute_metrics_from_close close interval).summary.var_99_1d =
      if ((simpleReturns (close.map Prod.snd)).reduceOption).length < 2 then none
      else some (-((mean ((simpleReturns (close.map Prod.snd)).reduceOption) : ℝ) +
        z99 * Real.sqrt (sampleVar ((simpleReturns (close.map Prod.snd)).reduceOption)))) := rfl
  refine ⟨?_, ?_, ?_⟩
  · intro hlt
    rw [h95, h99]
    rw [if_pos hlt, if_pos hlt]
    exact ⟨rfl, rfl⟩
  · intro hge
    rw [h95, h99]
    rw [if_neg (by omega), if_neg (by omega)]
    exact ⟨rfl, rfl⟩
  · intro hge hs0
    rw [h95, h99]
    rw [if_neg (by omega), if_neg (by omega), hs0]
    norm_num

/-- C4 witness: two equal +10% returns give σ = 0 and
var_95_1d = var_99_1d = −0.10. -/
theorem C4_var_witness :
    2 ≤ ((simpleReturns (pricesABC.map Prod.snd)).reduceOption).length ∧
    Real.sqrt (sampleVar ((simpleReturns (pricesABC.map Prod.snd)).reduceOption)) = 0 ∧
    (compute_metrics_from_close pricesABC "d").summary.var_95_1d = some (-(1 / 10 : ℝ)) ∧
    (compute_metrics_from_close pricesABC "d").summary.var_99_1d = some (-(1 / 10 : ℝ)) := by
  have hval : (simpleReturns (pricesABC.map Prod.snd)).reduceOption = [1 / 10, 1 / 10] := by
    norm_num [pricesABC, simpleReturns, pairReturn, List.reduceOption, List.filterMap_cons]
  have h2 : 2 ≤ ((simpleReturns (pricesABC.map Prod.snd)).reduceOption).length := by
    rw [hval]
    simp
  have h0 : sampleVar [(1 : ℚ) / 10, 1 / 10] = 0 := by
    norm_num [sampleVar, mean]
  have hs : Real.sqrt (sampleVar ((simpleReturns (pricesABC.map Prod.snd)).reduceOption)) = 0 := by
    rw [hval, h0]
    norm_num
  have hres := (C4_var pricesABC "d").2.2 h2 hs
  have hm : mean ((simpleReturns (pricesABC.map Prod.snd)).reduceOption) = 1 / 10 := by
    rw [hval]
    norm_num [mean]
  refine ⟨h2, hs, ?_, ?_⟩
  · rw [hres.1, hm]
    norm_num
  · rw [hres.2, hm]
    norm_num

theorem sqrt252_ne_zero : Real.sqrt 252 ≠ 0 :=
  Real.sqrt_ne_zero'.mpr (by norm_num)

theorem scale_sqrt (a : ℝ) :
    a * Real.sqrt 252 * (Real.sqrt 12 / Real.sqrt 252) = a * Real.sqrt 12 := by
  have h := sqrt252_ne_zero
  field_simp
  ring

theorem rollingVol_scale (r : List (Option ℚ)) :
    rollingVol 12 r =
      (rollingVol 252 r).map (Option.map (fun x => x * (Real.sqrt 12 / Real.sqrt 252))) := by
  unfold rollingVol
  rw [List.map_map]
  apply List.map_congr_left
  intro i _
  by_cases hw : ((trailingWindow r i).reduceOption).length < 2
  · simp [hw]
  · simp only [Function.comp_apply, if_neg hw, Option.map_some']
    push_cast
    rw [scale_sqrt]

/-- C9 (amended): changing the interval from daily to monthly multiplies
annualised_return by 12/252, and multiplies annualised_volatility and every
non-null rolling_vol_30 entry by sqrt(12)/sqrt(252); everything per-period
is interval-agnostic: the dates, the return series and both VaR fields are
unchanged. -/
theorem C9_interval_scaling (close : List (String × Option ℚ)) :
    (compute_metrics_from_close close "m").series.dates =
      (compute_metrics_from_close close "d").series.dates ∧
    (compute_metrics_from_close close "m").series.returns =
      (compute_metrics_from_close close "d").series.returns ∧
    (compute_metrics_from_close close "m").summary.var_95_1d =
      (compute_metrics_from_close close "d").summary.var_95_1d ∧
    (compute_metrics_from_close close "m").summary.var_99_1d =
      (compute_metrics_from_close close "d").summary.var_99_1d ∧
    (compute_metrics_from_close close "m").summary.annualised_return =
      ((compute_metrics_from_close close "d").summary.annualised_return).map
        (fun x => x * (12 / 252)) ∧
    (compute_metrics_from_close close "m").summary.annualised_volatility =
      ((compute_metrics_from_close close "d").summary.annualised_volatility).map
        (fun x => x * (Real.sqrt 12 / Real.sqrt 252)) ∧
    (compute_metrics_from_close close "m").series.rolling_vol_30 =
      ((compute_metrics_from_close close "d").series.rolling_vol_30).map
        (Option.map (fun x => x * (Real.sqrt 12 / Real.sqrt 252))) := by
  refine ⟨rfl, rfl, rfl, rfl, ?_, ?_, ?_⟩
  · have hm : (compute_metrics_from_close close "m").summary.annualised_return =
        if ((simpleReturns (close.map Prod.snd)).reduceOption).length = 0 then none
        else some (mean ((simpleReturns (close.map Prod.snd)).reduceOption) * 12) := rfl
    have hd : (compute_metrics_from_close close "d").summary.annualised_return =
        if ((simpleReturns (close.map Prod.snd)).reduceOption).length = 0 then none
        else some (mean ((simpleReturns (close.map Prod.snd)).reduceOption) * 252) := rfl
    rw [hm, hd]
    by_cases h0 : ((simpleReturns (close.map Prod.snd)).reduceOption).length = 0
    · simp [h0]
    · rw [if_neg h0, if_neg h0, Option.map_some']
      congr 1
      ring
  · have hm : (compute_metrics_from_close close "m").summary.annualised_volatility =
        if ((simpleReturns (close.map Prod.snd)).reduceOption).length < 2 then none
        else some (Real.sqrt (sampleVar ((simpleReturns (close.map Prod.snd)).reduceOption)) *
          Real.sqrt 12) := rfl
    have hd : (compute_metrics_from_close close "d").summary.annualised_volatility =
        if ((simpleReturns (close.map Prod.snd)).reduceOption).length < 2 then none
        else some (Real.sqrt (sampleVar ((simpleReturns (close.map Prod.snd)).reduceOption)) *
          Real.sqrt 252) := rfl
    rw [hm, hd]
    by_cases h0 : ((simpleReturns (close.map Prod.snd)).reduceOption).length < 2
    · simp [h0]
    · rw [if_neg h0, if_neg h0, Option.map_some', scale_sqrt]
  · have hm : (compute_metrics_from_close close "m").series.rolling_vol_30 =
        rollingVol 12 (simpleReturns (close.map Prod.snd)) := rfl
    have hd : (compute_metrics_from_close close "d").series.rolling_vol_30 =
        rollingVol 252 (simpleReturns (close.map Prod.snd)) := rfl
    rw [hm, hd]
    exact rollingVol_scale _

/-- C9 counterexample: on a series with two different returns, the daily
and monthly results do not differ only in annualised_return and
annualised_volatility — the rolling_vol_30 series changes as well, so the
claim's "changes nothing else" is false as stated. -/
theorem C9_counterexample :
    (compute_metrics_from_close pricesVol "m").series.rolling_vol_30 ≠
      (compute_metrics_from_close pricesVol "d").series.rolling_vol_30 := by
  have hr : simpleReturns (pricesVol.map Prod.snd) = [some 1, some (-(1 / 2))] := by
    norm_num [pricesVol, simpleReturns, pairReturn]
  have hval : ∀ ppy : ℚ, (rollingVol ppy [some 1, some (-(1 / 2))])[1]? =
      some (some (Real.sqrt (sampleVar [1, -(1 / 2)]) * Real.sqrt (ppy : ℝ))) := by
    intro ppy
    have h1 : (1 : ℕ) < ([some (1 : ℚ), some (-(1 / 2))] : List (Option ℚ)).length := by
      norm_num
    rw [rollingVol, List.getElem?_map]
    simp only [List.length_cons, List.length_nil, List.getElem?_range, h1, if_pos]
    norm_num [trailingWindow, List.reduceOption, List.filterMap_cons]
  have hvar : sampleVar [(1 : ℚ), -(1 / 2)] = 9 / 8 := by
    norm_num [sampleVar, mean]
  intro h
  have hm : (compute_metrics_from_close pricesVol "m").series.rolling_vol_30 =
      rollingVol 12 [some 1, some (-(1 / 2))] := by
    rw [show (compute_metrics_from_close pricesVol "m").series.rolling_vol_30 =
        rollingVol (periodsPerYear "m") (simpleReturns (pricesVol.map Prod.snd)) from rfl, hr]
    rfl
  have hd : (compute_metrics_from_close pricesVol "d").series.rolling_vol_30 =
      rollingVol 252 [some 1, some (-(1 / 2))] := by
    rw [show (compute_metrics_from_close pricesVol "d").series.rolling_vol_30 =
        rollingVol (periodsPerYear "d") (simpleReturns (pricesVol.map Prod.snd)) from rfl, hr]
    rfl
  have h1 : (rollingVol 12 [some 1, some (-(1 / 2))])[1]? =
      (rollingVol 252 [some 1, some (-(1 / 2))])[1]? := by
    rw [← hm, ← hd, h]
  rw [hval 12, hval 252] at h1
  have h2 : Real.sqrt (sampleVar [1, -(1 / 2)]) * Real.sqrt ((12 : ℚ) : ℝ) =
      Real.sqrt (sampleVar [1, -(1 / 2)]) * Real.sqrt ((252 : ℚ) : ℝ) := by
    simpa using h1
  have hSpos : 0 < Real.sqrt (sampleVar [(1 : ℚ), -(1 / 2)]) := by
    rw [hvar]
    apply Real.sqrt_pos.mpr
    norm_num
  have h3 : Real.sqrt ((12 : ℚ) : ℝ) = Real.sqrt ((252 : ℚ) : ℝ) :=
    mul_left_cancel₀ (ne_of_gt hSpos) h2
  have h4 : Real.sqrt ((12 : ℚ) : ℝ) < Real.sqrt ((252 : ℚ) : ℝ) := by
    apply Real.sqrt_lt_sqrt (by norm_num) (by norm_num)
  exact absurd h3 (ne_of_lt h4)

/-- C8: in the `/api/metrics` loop of `main.py` the download is not wrapped
in try/except (unlike the `/api/ohlc` loop), so a ticker whose fetch raises
aborts the whole batch instead of degrading to an empty/null entry: with a
fetcher that raises only on `BAD`, the metrics loop over `AAPL,BAD` returns
an error that also discards AAPL's result, while the ohlc loop over the
same input isolates the failure to BAD's entry. -/
theorem C8_no_isolation :
    metricsEndpointLoop fetchBad (fun rows => rows.length) 0 "AAPL,BAD" =
      Except.error () ∧
    ohlcLoop fetchBad (parseTickers "AAPL,BAD") = [("AAPL", [1]), ("BAD", [])] := by
  constructor
  · rfl
  · rfl

theorem keys_dictInsert {ε : Type} (m : List (String × ε)) (k : String) (v : ε) :
    (dictInsert m k v).map Prod.fst =
      if k ∈ m.map Prod.fst then m.map Prod.fst else m.map Prod.fst ++ [k] := by
  by_cases hmem : k ∈ m.map Prod.fst
  · rw [dictInsert, if_pos hmem, if_pos hmem, List.map_map]
    apply List.map_congr_left
    intro p _
    by_cases hp : p.1 = k
    · simp [Function.comp_apply, hp]
    · simp [Function.comp_apply, hp]
  · rw [dictInsert, if_neg hmem, if_neg hmem, List.map_append]
    rfl

theorem findVal_not_mem {ε : Type} (m : List (String × ε)) (k : String)
    (h : k ∉ m.map Prod.fst) : findVal m k = none := by
  induction m with
  | nil => rfl
  | cons p rest ih =>
    simp only [List.map_cons, List.mem_cons, not_or] at h
    simp only [findVal]
    rw [if_neg (fun hp => h.1 hp.symm)]
    exact ih h.2

theorem findVal_append {ε : Type} (m₁ m₂ : List (String × ε)) (k : String) :
    findVal (m₁ ++ m₂) k =
      match findVal m₁ k with
      | some v => some v
      | none => findVal m₂ k := by
  induction m₁ with
  | nil => rfl
  | cons p rest ih =>
    simp only [List.cons_append, findVal]
    by_cases hp : p.1 = k
    · simp [hp]
    · simp [hp, ih]

theorem findVal_map_update_ne {ε : Type} (m : List (String × ε)) (k₀ : String) (v : ε)
    (k : String) (hk : k ≠ k₀) :
    findVal (m.map (fun p => if p.1 = k₀ then (k₀, v) else p)) k = findVal m k := by
  induction m with
  | nil => rfl
  | cons p rest ih =>
    simp only [List.map_cons]
    by_cases hp : p.1 = k₀
    · rw [if_pos hp]
      simp only [findVal]
      rw [if_neg (fun h => hk h.symm), if_neg (fun (h : p.1 = k) => hk (h ▸ hp))]
      exact ih
    · rw [if_neg hp]
      simp only [findVal]
      by_cases hpk : p.1 = k
      · rw [if_pos hpk, if_pos hpk]
      · rw [if_neg hpk, if_neg hpk]
        exact ih

theorem findVal_map_update_mem {ε : Type} (m : List (String × ε)) (k₀ : String) (v : ε)
    (hmem : k₀ ∈ m.map Prod.fst) :
    findVal (m.map (fun p => if p.1 = k₀ then (k₀, v) else p)) k₀ = some v := by
  induction m with
  | nil => simp at hmem
  | cons p rest ih =>
    simp only [List.map_cons]
    by_cases hp : p.1 = k₀
    · rw [if_pos hp]
      simp [findVal]
    · rw [if_neg hp]
      simp only [findVal]
      rw [if_neg hp]
      apply ih
      simp only [List.map_cons, List.mem_cons] at hmem
      rcases hmem with h | h
      · exact absurd h.symm hp
      · exact h

theorem findVal_dictInsert {ε : Type} (m : List (String × ε)) (k₀ : String) (v : ε)
    (k : String) :
    findVal (dictInsert m k₀ v) k = if k₀ = k then some v else findVal m k := by
  by_cases hmem : k₀ ∈ m.map Prod.fst
  · rw [dictInsert, if_pos hmem]
    by_cases hk : k₀ = k
    · subst hk
      rw [if_pos rfl]
      exact findVal_map_update_mem m k₀ v hmem
    · rw [if_neg hk]
      exact findVal_map_update_ne m k₀ v k (fun h => hk h.symm)
  · rw [dictInsert, if_neg hmem, findVal_append]
    by_cases hk : k₀ = k
    · subst hk
      rw [findVal_not_mem m k₀ hmem]
      simp [findVal]
    · cases hfv : findVal m k with
      | some w => simp [hfv, hk]
      | none => simp [hfv, hk, findVal, if_neg hk]

theorem firstDedupAux_congr (l : List String) : ∀ s₁ s₂ : List String,
    (∀ x, x ∈ s₁ ↔ x ∈ s₂) → firstDedupAux s₁ l = firstDedupAux s₂ l := by
  induction l with
  | nil => intro s₁ s₂ _; rfl
  | cons a l ih =>
    intro s₁ s₂ h
    simp only [firstDedupAux]
    by_cases ha : a ∈ s₁
    · rw [if_pos ha, if_pos ((h a).mp ha)]
      exact ih s₁ s₂ h
    · rw [if_neg ha, if_neg (fun c => ha ((h a).mpr c))]
      rw [ih (a :: s₁) (a :: s₂) (by intro x; simp [h x])]

theorem foldl_dictInsert_keys {ε : Type} (val : String → ε) (toks : List String) :
    ∀ m : List (String × ε),
      (toks.foldl (fun m t => dictInsert m (pyUpper t) (val t)) m).map Prod.fst =
        m.map Prod.fst ++ firstDedupAux (m.map Prod.fst) (toks.map pyUpper) := by
  induction toks with
  | nil => intro m; simp [firstDedupAux]
  | cons t rest ih =>
    intro m
    simp only [List.foldl_cons, List.map_cons, firstDedupAux]
    rw [ih, keys_dictInsert]
    by_cases hk : pyUpper t ∈ m.map Prod.fst
    · rw [if_pos hk, if_pos hk]
    · rw [if_neg hk, if_neg hk]
      rw [firstDedupAux_congr (rest.map pyUpper) (m.map Prod.fst ++ [pyUpper t])
        (pyUpper t :: m.map Prod.fst) (by intro x; simp [or_comm])]
      simp

theorem foldl_dictInsert_findVal {ε : Type} (val : String → ε) (toks : List String)
    (k : String) :
    findVal (toks.foldl (fun m t => dictInsert m (pyUpper t) (val t)) []) k =
      ((toks.filter (fun t => pyUpper t = k)).getLast?).map val := by
  induction toks using List.reverseRecOn with
  | nil => rfl
  | append_singleton l t ih =>
    rw [List.foldl_append]
    simp only [List.foldl_cons, List.foldl_nil]
    rw [findVal_dictInsert, List.filter_append]
    by_cases h : pyUpper t = k
    · rw [if_pos h]
      simp [h]
    · rw [if_neg h]
      simp [h, ih]

theorem metricsLoop_ok {ρ ε : Type} (fetch : String → Except Unit (List ρ))
    (proc : List ρ → ε) (nullEntry : ε) :
    ∀ (toks : List String) (m entries : List (String × ε)),
      metricsLoop fetch proc nullEntry toks m = Except.ok entries →
      entries = toks.foldl (fun m t => dictInsert m (pyUpper t)
        (match fetch t with
          | Except.ok rows => if rows.isEmpty then nullEntry else proc rows
          | Except.error _ => nullEntry)) m := by
  intro toks
  induction toks with
  | nil =>
    intro m entries h
    simp only [metricsLoop] at h
    injection h with h2
    simp only [List.foldl_nil]
    exact h2.symm
  | cons t rest ih =>
    intro m entries h
    simp only [metricsLoop] at h
    cases hf : fetch t with
    | error u =>
      rw [hf] at h
      exact absurd h (by simp)
    | ok rows =>
      rw [hf] at h
      simp only [List.foldl_cons]
      rw [hf]
      exact ih _ _ h

/-- C10: for both endpoints of `main.py`, the keys of the per-ticker result
map are the uppercase forms of the stripped non-empty comma-separated
tokens of the tickers parameter in order of first appearance (same-uppercase
tokens collapse to one entry); the value at a key comes from the last token
mapping to it (later overwrites earlier); and the response's tickers list is
exactly the key list. -/
theorem C10_ticker_keys {ρ ε : Type} (fetch : String → Except Unit (List ρ))
    (proc : List ρ → ε) (nullEntry : ε) (tks iv rng : String) :
    (ohlcEndpoint fetch tks iv rng).data.map Prod.fst =
      firstDedup ((parseTickers tks).map pyUpper) ∧
    (ohlcEndpoint fetch tks iv rng).tickers =
      (ohlcEndpoint fetch tks iv rng).data.map Prod.fst ∧
    (∀ k, findVal (ohlcEndpoint fetch tks iv rng).data k =
      (((parseTickers tks).filter (fun t => pyUpper t = k)).getLast?).map
        (fun t => match fetch t with
          | Except.ok rows => rows
          | Except.error _ => [])) ∧
    (∀ entries, metricsEndpointLoop fetch proc nullEntry tks = Except.ok entries →
      entries.map Prod.fst = firstDedup ((parseTickers tks).map pyUpper) ∧
      ∀ k, findVal entries k =
        (((parseTickers tks).filter (fun t => pyUpper t = k)).getLast?).map
          (fun t => match fetch t with
            | Except.ok rows => if rows.isEmpty then nullEntry else proc rows
            | Except.error _ => nullEntry)) := by
  refine ⟨?_, rfl, ?_, ?_⟩
  · show (pyDictLoop _ (parseTickers tks)).map Prod.fst = _
    rw [pyDictLoop, foldl_dictInsert_keys]
    simp [firstDedup]
  · intro k
    exact foldl_dictInsert_findVal _ (parseTickers tks) k
  · intro entries h
    have he := metricsLoop_ok fetch proc nullEntry (parseTickers tks) [] entries h
    constructor
    · rw [he, foldl_dictInsert_keys]
      simp [firstDedup]
    · intro k
      rw [he]
      exact foldl_dictInsert_findVal _ (parseTickers tks) k

/-- C10 witness: the theorem applied to the parameter `b, a ,B`, whose key
list is B, A (first appearance order, empty token dropped, duplicate
uppercase collapsed) with the later token's value winning. -/
theorem C10_ticker_keys_witness :
    metricsEndpointLoop fetchOk (fun rows => rows.length) 0 "b, a ,B" =
      Except.ok [("B", 1), ("A", 1)] ∧
    ([("B", 1), ("A", 1)] : List (String × ℕ)).map Prod.fst =
      firstDedup ((parseTickers "b, a ,B").map pyUpper) ∧
    ∀ k, findVal ([("B", 1), ("A", 1)] : List (String × ℕ)) k =
      (((parseTickers "b, a ,B").filter (fun t => pyUpper t = k)).getLast?).map
        (fun t => match fetchOk t with
          | Except.ok rows => if rows.isEmpty then 0 else rows.length
          | Except.error _ => 0) := by
  have h : metricsEndpointLoop fetchOk (fun rows => rows.length) 0 "b, a ,B" =
      Except.ok [("B", 1), ("A", 1)] := by rfl
  have hc := (C10_ticker_keys fetchOk (fun rows => rows.length) 0 "b, a ,B" "d" "1Y").2.2.2
    [("B", 1), ("A", 1)] h
  exact ⟨h, hc.1, hc.2⟩

end StockViewer
